import Mathlib

/-!
# Verification of the ash-runner hot-reload rendering harness

This file gives a shallow embedding, in Lean 4, of the core of the
`rust-gpu-ash-runner` repository (`src/ash_runner.rs`, `src/compile.rs`)
and proves properties of the embedded definitions.

The embedding covers:

* the shader-compiler driver `compile_shaders` (toolchain invocation,
  line-delimited artifact-event parsing, `.spv` artifact loading),
* the surface/swapchain creation and recreation logic
  (`surface_resolution`, `create_swapchain`, `recreate_swapchain`),
  together with an explicit log of the GPU destroy/create calls issued,
* the per-frame draw command recording (`draw` / `render`) including the
  push-constant record,
* the cross-thread hot-reload protocol (the `IS_COMPILING` /
  `NEEDS_REBUILD` / `NEW_SHADERS` statics and the event-loop handlers),
  modelled as a small-step transition system `Step` over `LoopState`
  with one step per source-level statement of the background thread.

Rust `u32` values are modelled as `Nat` (no arithmetic overflow occurs in
the modelled code paths; the only `u32`-specific behaviour, the
`u32::MAX` sentinel in `surface_resolution`, is modelled explicitly).
Rust panics (`unwrap` / `expect`) in fallible code are modelled as
`Except` errors or as explicit `halted` / erased-thread outcomes.
-/

/-- The embedded `u32::MAX`, the sentinel value used by `surface_resolution`. -/
def U32_MAX : Nat := 4294967295

/-- The embedded `SpirvShader { name, spirv }` from `compile.rs` / `ash_runner.rs`:
a named SPIR-V module as a sequence of 32-bit words. -/
structure SpirvShader where
  name : String
  spirv : List Nat
deriving DecidableEq, Repr

/-- The embedded `Extent2D { width, height }` (`vk::Extent2D`). -/
structure Extent2D where
  width : Nat
  height : Nat
deriving DecidableEq, Repr

/-- The embedded `ShaderConstants { width, height }` from `ash_runner.rs`, the
push-constant record. -/
structure ShaderConstants where
  width : Nat
  height : Nat
deriving DecidableEq, Repr

/-! ## `compile.rs`: `compile_shaders` -/

/-- The embedded `SpirvArtifacts { reason, filenames }`: the deserialized shape of one
line of cargo json output. -/
structure SpirvArtifacts where
  reason : String
  filenames : Option (List String)
deriving DecidableEq, Repr

/-- The observable outcome of running the external cargo process.
`stdoutLines` holds, per stdout line, the result of the
`serde_json::from_str::<SpirvArtifacts>` parse (`none` = parse error,
which the source silently drops via `filter_map`).  `exitSuccess` is the
process exit status; the source never inspects it. -/
structure CargoOutput where
  spawnOk : Bool
  exitSuccess : Bool
  stdoutLines : List (Option SpirvArtifacts)
deriving DecidableEq, Repr

/-- The panics that `compile_shaders` can raise, one per
`expect`/`unwrap` on its failure paths. -/
inductive CompileErr
  | cargoExecFailed
  | noOutputArtifacts
  | noArtifactFilenames
  | fileReadFailed (path : String)
deriving DecidableEq, Repr

/-- The embedded `Path::file_stem().unwrap().into_string()`: final path component
with the extension after the last dot removed (a leading-dot-only name
keeps the dot, as in Rust). -/
def fileStem (p : String) : String :=
  let comp := ((p.splitOn "\\").getLastD p).splitOn "/" |>.getLastD p
  match comp.splitOn "." with
  | [] => comp
  | [single] => single
  | "" :: [_] => comp
  | parts => String.intercalate "." parts.dropLast

/-- Rust `str::ends_with`, over the character lists of the strings. -/
def strEndsWith (s suffix : String) : Bool := suffix.data.isSuffixOf s.data

/-- The artifact-loading loop of `compile_shaders`: open each `.spv`
path, read its words (`read_spv(..).unwrap()`), and record the shader
under its file stem.  The first failing read panics. -/
def loadShaderFiles (readSpv : String → Option (List Nat)) :
    List String → Except CompileErr (List SpirvShader)
  | [] => Except.ok []
  | p :: ps =>
    match readSpv p with
    | none => Except.error (CompileErr.fileReadFailed p)
    | some words =>
      match loadShaderFiles readSpv ps with
      | Except.error e => Except.error e
      | Except.ok rest => Except.ok ({ name := fileStem p, spirv := words } :: rest)

/-- The lines of cargo stdout that parse as json and have
`reason == "compiler-artifact"`. -/
def parsedArtifactEvents (out : CargoOutput) : List SpirvArtifacts :=
  (out.stdoutLines.filterMap id).filter (fun m => m.reason == "compiler-artifact")

/-- The `.spv` entries of the `filenames` of the *last* compiler-artifact
event (empty when there is no such event or it has no filenames). -/
def spvArtifactPaths (out : CargoOutput) : List String :=
  match (parsedArtifactEvents out).getLast? with
  | none => []
  | some m => (m.filenames.getD []).filter (fun f => strEndsWith f ".spv")

/-- The embedded `compile_shaders` from `compile.rs` (identical copy in
`ash_runner.rs`), as a function of the cargo process outcome and of the
filesystem (`readSpv path = none` models a failing open/read). -/
def compile_shaders (out : CargoOutput) (readSpv : String → Option (List Nat)) :
    Except CompileErr (List SpirvShader) :=
  if out.spawnOk = false then Except.error CompileErr.cargoExecFailed
  else
    match (parsedArtifactEvents out).getLast? with
    | none => Except.error CompileErr.noOutputArtifacts
    | some lastMsg =>
      match lastMsg.filenames with
      | none => Except.error CompileErr.noArtifactFilenames
      | some files =>
        loadShaderFiles readSpv (files.filter (fun f => strEndsWith f ".spv"))

/-- Whether an embedded Rust computation panicked. -/
def isErr {α : Type} : Except CompileErr α → Bool
  | Except.error _ => true
  | Except.ok _ => false

/-- C4, as the spec states it: `compile()` fails exactly when the
toolchain exits abnormally, or its output has no parseable
artifact-produced event, or no binary shader artifacts are found. -/
def ClaimC4 : Prop :=
  ∀ (out : CargoOutput) (readSpv : String → Option (List Nat)),
    isErr (compile_shaders out readSpv) = true ↔
      (out.exitSuccess = false ∨ parsedArtifactEvents out = [] ∨ spvArtifactPaths out = [])

/-! ## `ash_runner.rs`: surface resolution, swapchain, framebuffers -/

/-- Surface capabilities as reported by
`get_physical_device_surface_capabilities`.  The transform is kept
abstract as a `Nat` tag; `0` stands for `IDENTITY`. -/
structure SurfaceCapabilities where
  minImageCount : Nat
  maxImageCount : Nat
  currentExtent : Extent2D
  supportsIdentity : Bool
  currentTransform : Nat
deriving DecidableEq, Repr

/-- The identity surface transform tag. -/
def IDENTITY_TRANSFORM : Nat := 0

/-- The embedded `vk::PresentModeKHR` values relevant to the source. -/
inductive PresentMode
  | immediate
  | mailbox
  | fifo
  | fifoRelaxed
deriving DecidableEq, Repr

/-- The embedded `RenderBase::surface_resolution`: the capabilities' `current_extent`
unless its width is the `u32::MAX` sentinel, in which case the window's
inner size. -/
def surface_resolution (caps : SurfaceCapabilities) (windowInner : Extent2D) : Extent2D :=
  if caps.currentExtent.width = U32_MAX then
    { width := windowInner.width, height := windowInner.height }
  else caps.currentExtent

/-- The data of the `SwapchainCreateInfoKHR` the source builds (the
fields a later claim can observe). -/
structure SwapchainInfo where
  extent : Extent2D
  minImageCount : Nat
  preTransform : Nat
  presentMode : PresentMode
deriving DecidableEq, Repr

/-- The embedded `RenderBase::create_swapchain`: image count `min+1` clamped to the
maximum (when bounded), identity transform when supported, MAILBOX
present mode when available else FIFO, extent from
`surface_resolution`. -/
def create_swapchain (caps : SurfaceCapabilities) (windowInner : Extent2D)
    (presentModes : List PresentMode) : SwapchainInfo :=
  let desired := caps.minImageCount + 1
  let desired :=
    if caps.maxImageCount > 0 ∧ desired > caps.maxImageCount then caps.maxImageCount
    else desired
  let preT := if caps.supportsIdentity then IDENTITY_TRANSFORM else caps.currentTransform
  let pm :=
    match presentModes.find? (fun m => m == PresentMode.mailbox) with
    | some m => m
    | none => PresentMode.fifo
  { extent := surface_resolution caps windowInner
    minImageCount := desired
    preTransform := preT
    presentMode := pm }

/-- One framebuffer as created by `RenderBase::create_framebuffers`:
bound to the render pass and one view, sized by `surface_resolution`. -/
structure FramebufferInfo where
  handle : Nat
  renderPass : Nat
  attachment : Nat
  width : Nat
  height : Nat
deriving DecidableEq, Repr

/-- The embedded `RenderBase::create_framebuffers`: one framebuffer per image view,
each with `width`/`height` from `surface_resolution`. -/
def create_framebuffers (caps : SurfaceCapabilities) (windowInner : Extent2D)
    (imageViews : List Nat) (renderPass : Nat) (base : Nat) : List FramebufferInfo :=
  (List.range imageViews.length).map fun i =>
    { handle := base + i
      renderPass := renderPass
      attachment := imageViews.getD i 0
      width := (surface_resolution caps windowInner).width
      height := (surface_resolution caps windowInner).height }

/-- The embedded `vk::Viewport` (coordinates as integers; the source casts the
integral resolution to `f32`, and flips the height sign). -/
structure Viewport where
  x : Int
  y : Int
  width : Int
  height : Int
deriving DecidableEq, Repr

/-- The embedded `vk::Rect2D` as used for the scissor. -/
structure Rect2D where
  offsetX : Int
  offsetY : Int
  extent : Extent2D
deriving DecidableEq, Repr

/-- The viewport `RenderCtx::from_base` builds from a resolution:
`x=0, y=h, width=w, height=-h`. -/
def viewport_of (res : Extent2D) : Viewport :=
  { x := 0, y := (res.height : Int), width := (res.width : Int), height := -(res.height : Int) }

/-- The scissor `RenderCtx::from_base` builds from a resolution. -/
def scissor_of (res : Extent2D) : Rect2D :=
  { offsetX := 0, offsetY := 0, extent := res }

/-- The `viewports` field set up by `RenderCtx::from_base`. -/
def from_base_viewports (caps : SurfaceCapabilities) (windowInner : Extent2D) : List Viewport :=
  [viewport_of (surface_resolution caps windowInner)]

/-- The `scissors` field set up by `RenderCtx::from_base`. -/
def from_base_scissors (caps : SurfaceCapabilities) (windowInner : Extent2D) : List Rect2D :=
  [scissor_of (surface_resolution caps windowInner)]

/-! ## Pipelines and the render context -/

/-- The embedded `(VertexShaderEntryPoint, FragmentShaderEntryPoint)`: a declarative
pair of (module name, entry symbol) stage descriptions. -/
structure EntryPair where
  vertModule : String
  vertEntry : String
  fragModule : String
  fragEntry : String
deriving DecidableEq, Repr

/-- One built graphics pipeline: the resolved shader-module handles and
entry symbols of its two stages. -/
structure PipelineModel where
  vertHandle : Nat
  vertEntry : String
  fragHandle : Nat
  fragEntry : String
deriving DecidableEq, Repr

/-- Lookup in the shader-module registry (`shader_modules: HashMap`),
modelled as an association list from name to GPU handle. -/
def lookupModule (reg : List (String × Nat)) (name : String) : Option Nat :=
  (reg.find? (fun e => e.1 == name)).map (fun e => e.2)

/-- The embedded `RenderCtx::insert_shader_module`: create the module handle and
replace (destroying) any previous entry of the same name. -/
def insert_shader_module (reg : List (String × Nat)) (name : String) (handle : Nat) :
    List (String × Nat) :=
  (name, handle) :: reg.filter (fun e => !(e.1 == name))

/-- Drain a list of compiled shaders into the registry in order, handing
out fresh GPU handles (`NEW_SHADERS.drain(..)` followed by
`insert_shader_module` per shader). -/
def drainInsert : List (String × Nat) → Nat → List SpirvShader → List (String × Nat) × Nat
  | reg, next, [] => (reg, next)
  | reg, next, sh :: rest => drainInsert (insert_shader_module reg sh.name next) (next + 1) rest

/-- Resolution of one entry-point pair against the registry
(`self.shader_modules.get(..).unwrap()`: `none` models the panic on an
absent name). -/
def resolvePipeline (reg : List (String × Nat)) (ep : EntryPair) : Option PipelineModel :=
  match lookupModule reg ep.vertModule, lookupModule reg ep.fragModule with
  | some vh, some fh =>
    some { vertHandle := vh, vertEntry := ep.vertEntry, fragHandle := fh, fragEntry := ep.fragEntry }
  | _, _ => none

/-- The embedded `RenderCtx::rebuild_pipelines`: resolve every pair of the shader set
in one batch; `none` models the panic on the first unresolved name. -/
def rebuild_pipelines (reg : List (String × Nat)) :
    List EntryPair → Option (List PipelineModel)
  | [] => some []
  | ep :: rest =>
    match resolvePipeline reg ep, rebuild_pipelines reg rest with
    | some p, some ps => some (p :: ps)
    | _, _ => none

/-- The mutable state of `RenderCtx` relevant to swapchain recreation
and drawing.  Handles are `Nat` tokens; `nextHandle` provides fresh
ones. -/
structure RenderCtx where
  swapchain : SwapchainInfo
  imageViews : List Nat
  renderPass : Nat
  framebuffers : List FramebufferInfo
  drawCommandBuffer : Nat
  setupCommandBuffer : Nat
  viewports : List Viewport
  scissors : List Rect2D
  pipelines : List PipelineModel
  shader_modules : List (String × Nat)
  shader_set : List EntryPair
  nextHandle : Nat
deriving DecidableEq, Repr

/-- The GPU resource-lifecycle calls issued by
`RenderCtx::recreate_swapchain`, in program order. -/
inductive GpuOp
  | waitIdle
  | destroyFramebuffer (handle : Nat)
  | freeCommandBuffers
  | destroyRenderPass (handle : Nat)
  | destroyImageView (handle : Nat)
  | destroySwapchain
  | createSwapchain
  | createImageView (handle : Nat)
  | createRenderPass (handle : Nat)
  | allocCommandBuffers
  | createFramebuffer (handle : Nat)
deriving DecidableEq, Repr

/-- Destruction calls (including freeing the command buffers). -/
def GpuOp.isDestroy : GpuOp → Bool
  | GpuOp.destroyFramebuffer _ => true
  | GpuOp.freeCommandBuffers => true
  | GpuOp.destroyRenderPass _ => true
  | GpuOp.destroyImageView _ => true
  | GpuOp.destroySwapchain => true
  | _ => false

/-- Creation/allocation calls. -/
def GpuOp.isCreate : GpuOp → Bool
  | GpuOp.createSwapchain => true
  | GpuOp.createImageView _ => true
  | GpuOp.createRenderPass _ => true
  | GpuOp.allocCommandBuffers => true
  | GpuOp.createFramebuffer _ => true
  | _ => false

/-- The cleanup block of `recreate_swapchain`, in source order:
wait idle, destroy framebuffers, free command buffers, destroy render
pass, destroy image views, destroy swapchain. -/
def recreateDestroyLog (ctx : RenderCtx) : List GpuOp :=
  [GpuOp.waitIdle]
    ++ ctx.framebuffers.map (fun fb => GpuOp.destroyFramebuffer fb.handle)
    ++ [GpuOp.freeCommandBuffers, GpuOp.destroyRenderPass ctx.renderPass]
    ++ ctx.imageViews.map GpuOp.destroyImageView
    ++ [GpuOp.destroySwapchain]

/-- The recreation block of `recreate_swapchain`, in source order:
create swapchain, create image views, create render pass, allocate
command buffers, create framebuffers. -/
def recreateCreateLog (views : List Nat) (renderPass : Nat) (fbs : List FramebufferInfo) :
    List GpuOp :=
  [GpuOp.createSwapchain]
    ++ views.map GpuOp.createImageView
    ++ [GpuOp.createRenderPass renderPass, GpuOp.allocCommandBuffers]
    ++ fbs.map (fun fb => GpuOp.createFramebuffer fb.handle)

/-- The embedded `RenderCtx::recreate_swapchain`: tear down the old generation, then
build the new one, returning the updated context and the ordered log of
GPU calls.  Pipelines, shader modules, the shader set and the (dynamic)
viewport/scissor state are not touched. -/
def recreate_swapchain (ctx : RenderCtx) (caps : SurfaceCapabilities)
    (windowInner : Extent2D) (presentModes : List PresentMode) :
    RenderCtx × List GpuOp :=
  let sc := create_swapchain caps windowInner presentModes
  let imageCount := sc.minImageCount
  let views := (List.range imageCount).map (fun i => ctx.nextHandle + i)
  let rp := ctx.nextHandle + imageCount
  let fbs := create_framebuffers caps windowInner views rp (ctx.nextHandle + imageCount + 1)
  ({ ctx with
      swapchain := sc
      imageViews := views
      renderPass := rp
      framebuffers := fbs
      setupCommandBuffer := ctx.nextHandle + imageCount + 1 + imageCount
      drawCommandBuffer := ctx.nextHandle + imageCount + 1 + imageCount + 1
      nextHandle := ctx.nextHandle + imageCount + 1 + imageCount + 2 },
   recreateDestroyLog ctx ++ recreateCreateLog views rp fbs)

/-- C7, as the spec states it: a resize-triggered recreation keeps the
pipeline set and registry, and the new chain's resolution equals the new
window dimensions. -/
def ClaimC7 : Prop :=
  ∀ (ctx : RenderCtx) (caps : SurfaceCapabilities) (windowInner : Extent2D)
    (presentModes : List PresentMode),
    (recreate_swapchain ctx caps windowInner presentModes).1.pipelines = ctx.pipelines ∧
    (recreate_swapchain ctx caps windowInner presentModes).1.shader_modules = ctx.shader_modules ∧
    (recreate_swapchain ctx caps windowInner presentModes).1.swapchain.extent = windowInner

/-! ## Drawing (`RenderCtx::draw` / `RenderCtx::render`) -/

/-- Commands recorded into the draw command buffer. -/
inductive DrawCmd
  | beginRenderPass (renderArea : Extent2D)
  | bindPipeline (p : PipelineModel)
  | setViewport (vs : List Viewport)
  | setScissor (ss : List Rect2D)
  | pushConstants (c : ShaderConstants)
  | draw (vertexCount instanceCount firstVertex firstInstance : Nat)
  | endRenderPass
deriving DecidableEq, Repr

/-- The embedded `RenderCtx::draw`: the render pass recorded for one pipeline.  The
push-constant record is hard-coded to `{width: 1920, height: 720}` in
the source. -/
def draw (ctx : RenderCtx) (caps : SurfaceCapabilities) (windowInner : Extent2D)
    (pipeline : PipelineModel) : List DrawCmd :=
  [DrawCmd.beginRenderPass (surface_resolution caps windowInner),
   DrawCmd.bindPipeline pipeline,
   DrawCmd.setViewport ctx.viewports,
   DrawCmd.setScissor ctx.scissors,
   DrawCmd.pushConstants { width := 1920, height := 720 },
   DrawCmd.draw 3 1 0 0,
   DrawCmd.endRenderPass]

/-- The embedded `RenderCtx::render`: one `draw` per active pipeline. -/
def render (ctx : RenderCtx) (caps : SurfaceCapabilities) (windowInner : Extent2D) :
    List DrawCmd :=
  (ctx.pipelines.map (fun p => draw ctx caps windowInner p)).flatten

/-- The push-constant records appearing in a command sequence. -/
def pushedConstants (cmds : List DrawCmd) : List ShaderConstants :=
  cmds.filterMap fun c =>
    match c with
    | DrawCmd.pushConstants sc => some sc
    | _ => none

/-! ## The hot-reload protocol (`main`'s event loop and statics)

The shared state is the three statics `IS_COMPILING`, `NEEDS_REBUILD`
and `NEW_SHADERS`, plus the render thread's registry and pipelines.  The
background closure spawned on F5 executes, in order:

```
NEW_SHADERS = compile_shaders();      // write the staged buffer
NEEDS_REBUILD.store(true, SeqCst);
IS_COMPILING.store(false, SeqCst);    // closure returns
```

Each source-level statement is one transition; a panic inside
`compile_shaders()` kills the thread before any of the three writes.
The render thread's `RedrawEventsCleared` handler polls the flags once
per iteration; its drain-and-rebuild is a single transition because no
other thread can run interleaved with it (the only writer, the
background thread, exists only while `IS_COMPILING` is true).
-/

/-- Program counter of the background compile closure. -/
inductive ThreadPC
  | started
  | writing
  | wroteStaged
  | setPending
deriving DecidableEq, Repr

/-- The process-wide hot-reload state: the three statics, the
registry/pipeline state owned by the render thread, the set of live
background closures (with their progress), and whether the render
thread has panicked.  `stagedComplete` is a ghost flag tracking whether
the `NEW_SHADERS` buffer holds a fully written value. -/
structure LoopState where
  compiling : Bool
  needsRebuild : Bool
  newShaders : List SpirvShader
  stagedComplete : Bool
  threads : List ThreadPC
  shader_modules : List (String × Nat)
  nextHandle : Nat
  shader_set : List EntryPair
  pipelines : List PipelineModel
  halted : Bool
deriving DecidableEq, Repr

/-- The state is Idle in the sense of the hot-reload state machine. -/
def Idle (s : LoopState) : Prop :=
  s.compiling = false ∧ s.needsRebuild = false

/-- F5 with `IS_COMPILING = false`: the compare-and-swap succeeds and a
background closure is spawned. -/
def spawnStep (s : LoopState) : LoopState :=
  { s with compiling := true, threads := ThreadPC.started :: s.threads }

/-- The embedded `compile_shaders()` panicked inside closure `i`: the thread dies
having written nothing. -/
def compileFailStep (s : LoopState) (i : Nat) : LoopState :=
  { s with threads := s.threads.eraseIdx i }

/-- Closure `i` begins the assignment `NEW_SHADERS = ...`. -/
def writeBeginStep (s : LoopState) (i : Nat) : LoopState :=
  { s with threads := s.threads.set i ThreadPC.writing, stagedComplete := false }

/-- Closure `i` completes the assignment `NEW_SHADERS = mods`. -/
def writeEndStep (s : LoopState) (i : Nat) (mods : List SpirvShader) : LoopState :=
  { s with threads := s.threads.set i ThreadPC.wroteStaged, newShaders := mods,
           stagedComplete := true }

/-- Closure `i` executes `NEEDS_REBUILD.store(true)`. -/
def setPendingStep (s : LoopState) (i : Nat) : LoopState :=
  { s with threads := s.threads.set i ThreadPC.setPending, needsRebuild := true }

/-- Closure `i` executes `IS_COMPILING.store(false)` and returns. -/
def threadExitStep (s : LoopState) (i : Nat) : LoopState :=
  { s with threads := s.threads.eraseIdx i, compiling := false }

/-- The render thread drains `NEW_SHADERS` into the registry
(`insert_shader_module` per shader, in order). -/
def drainedState (s : LoopState) : LoopState :=
  { s with shader_modules := (drainInsert s.shader_modules s.nextHandle s.newShaders).1,
           nextHandle := (drainInsert s.shader_modules s.nextHandle s.newShaders).2,
           newShaders := [] }

/-- Successful drain-and-rebuild: the new pipeline batch replaces the
old one and `NEEDS_REBUILD` is cleared. -/
def rebuildOkStep (s : LoopState) (ps : List PipelineModel) : LoopState :=
  { drainedState s with pipelines := ps, needsRebuild := false }

/-- Drain-and-rebuild that panicked (unresolved module name, or
`create_graphics_pipelines` failure): the registry was already updated
but `pipelines` is never reassigned, `NEEDS_REBUILD` is never cleared,
and the render loop dies. -/
def rebuildPanicStep (s : LoopState) : LoopState :=
  { drainedState s with halted := true }

/-- One interleaved transition of the event loop or of a background
compile closure. -/
inductive Step : LoopState → LoopState → Prop
  | key_reload_dropped (s : LoopState) :
      s.halted = false → s.compiling = true → Step s s
  | key_reload_spawn (s : LoopState) :
      s.halted = false → s.compiling = false → Step s (spawnStep s)
  | compile_fail (s : LoopState) (i : Nat) :
      s.halted = false → s.threads.get? i = some ThreadPC.started →
      Step s (compileFailStep s i)
  | write_begin (s : LoopState) (i : Nat) :
      s.halted = false → s.threads.get? i = some ThreadPC.started →
      Step s (writeBeginStep s i)
  | write_end (s : LoopState) (i : Nat) (mods : List SpirvShader) :
      s.halted = false → s.threads.get? i = some ThreadPC.writing →
      Step s (writeEndStep s i mods)
  | set_pending (s : LoopState) (i : Nat) :
      s.halted = false → s.threads.get? i = some ThreadPC.wroteStaged →
      Step s (setPendingStep s i)
  | thread_exit (s : LoopState) (i : Nat) :
      s.halted = false → s.threads.get? i = some ThreadPC.setPending →
      Step s (threadExitStep s i)
  | redraw_no_rebuild (s : LoopState) :
      s.halted = false → (s.compiling = true ∨ s.needsRebuild = false) → Step s s
  | redraw_rebuild_ok (s : LoopState) (ps : List PipelineModel) :
      s.halted = false → s.compiling = false → s.needsRebuild = true →
      rebuild_pipelines (drainedState s).shader_modules s.shader_set = some ps →
      Step s (rebuildOkStep s ps)
  | redraw_rebuild_unresolved (s : LoopState) :
      s.halted = false → s.compiling = false → s.needsRebuild = true →
      rebuild_pipelines (drainedState s).shader_modules s.shader_set = none →
      Step s (rebuildPanicStep s)
  | redraw_rebuild_create_fail (s : LoopState) (ps : List PipelineModel) :
      s.halted = false → s.compiling = false → s.needsRebuild = true →
      rebuild_pipelines (drainedState s).shader_modules s.shader_set = some ps →
      Step s (rebuildPanicStep s)

/-- States reachable from `start` by interleaved transitions. -/
inductive Reachable (start : LoopState) : LoopState → Prop
  | refl : Reachable start start
  | tail {s t : LoopState} : Reachable start s → Step s t → Reachable start t

/-- The state `main` is in when the event loop begins: statics at their
initial values (`false`, `false`, empty buffer) and no background
thread. -/
def InitOk (s : LoopState) : Prop :=
  s.compiling = false ∧ s.needsRebuild = false ∧ s.threads = [] ∧ s.stagedComplete = true

/-- The inductive invariant of the hot-reload protocol. -/
def LoopInv (s : LoopState) : Prop :=
  (s.compiling = false → s.threads = []) ∧
  s.threads.length ≤ 1 ∧
  (∀ pc ∈ s.threads,
    (pc = ThreadPC.wroteStaged ∨ pc = ThreadPC.setPending) → s.stagedComplete = true) ∧
  (s.compiling = false → s.needsRebuild = true → s.stagedComplete = true)

/-- C5, as the spec states it: a rebuild failure surfaces the error
without disrupting rendering (the loop keeps running). -/
def ClaimC5 : Prop :=
  ∀ s t : LoopState, s.halted = false → Step s t → t.halted = false

/-- The entry-point pair `main` passes to `build_pipelines`:
`sky_shader::main_vs` / `sky_shader::main_fs`. -/
def skyEntryPair : EntryPair :=
  { vertModule := "sky_shader", vertEntry := "main_vs"
    fragModule := "sky_shader", fragEntry := "main_fs" }

/-- The startup sequence of `main` before the event loop: insert every
compiled shader, set the shader set to the single sky pair, build the
pipelines.  `createOk` abstracts whether `create_graphics_pipelines`
succeeds; a resolution or creation failure panics (`halted`). -/
def startupState (shaders : List SpirvShader) (createOk : Bool) : LoopState :=
  let reg := (drainInsert [] 0 shaders).1
  let nh := (drainInsert [] 0 shaders).2
  match rebuild_pipelines reg [skyEntryPair], createOk with
  | some ps, true =>
    { compiling := false, needsRebuild := false, newShaders := [], stagedComplete := true
      threads := [], shader_modules := reg, nextHandle := nh, shader_set := [skyEntryPair]
      pipelines := ps, halted := false }
  | _, _ =>
    { compiling := false, needsRebuild := false, newShaders := [], stagedComplete := true
      threads := [], shader_modules := reg, nextHandle := nh, shader_set := [skyEntryPair]
      pipelines := [], halted := true }

/-! ## Concrete example states used by witnesses and counterexamples -/

/-- A compiled sky shader as produced by the startup compile. -/
def exampleStartupShaders : List SpirvShader :=
  [{ name := "sky_shader", spirv := [119734787, 66560] }]

/-- The idle loop state right after a successful startup over
`exampleStartupShaders`. -/
def initExample : LoopState := startupState exampleStartupShaders true

/-- The state reached from `initExample` by one successful compile
cycle: spawn, write the staged buffer, set the pending flag, clear the
compiling flag. -/
def drainReadyExample : LoopState :=
  threadExitStep
    (setPendingStep
      (writeEndStep (writeBeginStep (spawnStep initExample) 0) 0
        [{ name := "sky_shader", spirv := [119734787, 66560, 17] }])
      0)
    0

/-- A loop state whose shader set names a module absent from the
registry (as would happen if the startup compile produced artifacts not
named `sky_shader`). -/
def unresolvedExample : LoopState :=
  { compiling := false, needsRebuild := true, newShaders := [], stagedComplete := true
    threads := [], shader_modules := [("other_shader", 0)], nextHandle := 1
    shader_set := [skyEntryPair], pipelines := [], halted := false }

/-- A render context with one pipeline, one view and one framebuffer. -/
def ctxExample : RenderCtx :=
  { swapchain := { extent := { width := 1280, height := 720 }, minImageCount := 3
                   preTransform := IDENTITY_TRANSFORM, presentMode := PresentMode.fifo }
    imageViews := [10]
    renderPass := 11
    framebuffers := [{ handle := 12, renderPass := 11, attachment := 10
                       width := 1280, height := 720 }]
    drawCommandBuffer := 14
    setupCommandBuffer := 13
    viewports := [viewport_of { width := 1280, height := 720 }]
    scissors := [scissor_of { width := 1280, height := 720 }]
    pipelines := [{ vertHandle := 0, vertEntry := "main_vs"
                    fragHandle := 0, fragEntry := "main_fs" }]
    shader_modules := [("sky_shader", 0)]
    shader_set := [skyEntryPair]
    nextHandle := 20 }

/-- Surface capabilities reporting a fixed `current_extent` of
1280 x 720 (no `u32::MAX` sentinel). -/
def capsExample : SurfaceCapabilities :=
  { minImageCount := 2, maxImageCount := 8, currentExtent := { width := 1280, height := 720 }
    supportsIdentity := true, currentTransform := IDENTITY_TRANSFORM }

/-- Surface capabilities whose `current_extent` (800 x 600) differs from
the window's inner size. -/
def capsMismatch : SurfaceCapabilities :=
  { minImageCount := 2, maxImageCount := 8, currentExtent := { width := 800, height := 600 }
    supportsIdentity := true, currentTransform := IDENTITY_TRANSFORM }

/-- Surface capabilities reporting the `u32::MAX` sentinel extent. -/
def capsSentinel : SurfaceCapabilities :=
  { minImageCount := 2, maxImageCount := 8
    currentExtent := { width := U32_MAX, height := 0 }
    supportsIdentity := true, currentTransform := IDENTITY_TRANSFORM }

/-- A window inner size distinct from `capsMismatch.currentExtent`. -/
def windowExample : Extent2D := { width := 1024, height := 768 }

/-- A cargo run that exited abnormally yet printed one artifact event
whose file list contains no `.spv` file. -/
def cargoNoSpv : CargoOutput :=
  { spawnOk := true, exitSuccess := false
    stdoutLines := [some { reason := "compiler-artifact", filenames := some ["libshaders.rlib"] }] }

/-- A cargo run producing one `.spv` artifact. -/
def cargoOneSpv : CargoOutput :=
  { spawnOk := true, exitSuccess := true
    stdoutLines :=
      [some { reason := "compiler-artifact"
              filenames := some ["shaders/target/sky_shader.spv", "libshaders.rlib"] }] }

/-- A filesystem on which every read fails. -/
def fsEmpty : String → Option (List Nat) := fun _ => none

/-! ## Theorems -/

theorem len_le_one_get? {α : Type} {l : List α} {i : Nat} {a : α}
    (hlen : l.length ≤ 1) (h : l.get? i = some a) : l = [a] ∧ i = 0 := by
  match l, i with
  | [], i => simp at h
  | [x], 0 =>
    simp at h
    exact ⟨by rw [h], rfl⟩
  | [x], n + 1 => simp at h
  | x :: y :: t, i => simp at hlen

theorem compiling_of_thread {s : LoopState} (h1 : s.compiling = false → s.threads = [])
    {a : ThreadPC} (hl : s.threads = [a]) : s.compiling = true := by
  cases hc : s.compiling
  · rw [h1 hc] at hl
    simp at hl
  · rfl

theorem loopInv_step {s t : LoopState} (hinv : LoopInv s) (hstep : Step s t) : LoopInv t := by
  obtain ⟨h1, h2, h3, h4⟩ := hinv
  cases hstep with
  | key_reload_dropped hh hc => exact ⟨h1, h2, h3, h4⟩
  | key_reload_spawn hh hc =>
    have hempty := h1 hc
    refine ⟨?_, ?_, ?_, ?_⟩ <;> simp [spawnStep, hempty]
  | compile_fail i hh hget =>
    obtain ⟨hl, hi⟩ := len_le_one_get? h2 hget
    have hcomp := compiling_of_thread h1 hl
    subst hi
    refine ⟨?_, ?_, ?_, ?_⟩ <;> simp [compileFailStep, hl, hcomp]
  | write_begin i hh hget =>
    obtain ⟨hl, hi⟩ := len_le_one_get? h2 hget
    have hcomp := compiling_of_thread h1 hl
    subst hi
    refine ⟨?_, ?_, ?_, ?_⟩ <;> simp [writeBeginStep, hl, hcomp]
  | write_end i mods hh hget =>
    obtain ⟨hl, hi⟩ := len_le_one_get? h2 hget
    have hcomp := compiling_of_thread h1 hl
    subst hi
    refine ⟨?_, ?_, ?_, ?_⟩ <;> simp [writeEndStep, hl, hcomp]
  | set_pending i hh hget =>
    obtain ⟨hl, hi⟩ := len_le_one_get? h2 hget
    have hcomp := compiling_of_thread h1 hl
    have hsc : s.stagedComplete = true :=
      h3 ThreadPC.wroteStaged (by rw [hl]; exact List.mem_singleton.mpr rfl) (Or.inl rfl)
    subst hi
    refine ⟨?_, ?_, ?_, ?_⟩ <;> simp [setPendingStep, hl, hcomp, hsc]
  | thread_exit i hh hget =>
    obtain ⟨hl, hi⟩ := len_le_one_get? h2 hget
    have hsc : s.stagedComplete = true :=
      h3 ThreadPC.setPending (by rw [hl]; exact List.mem_singleton.mpr rfl) (Or.inr rfl)
    subst hi
    refine ⟨?_, ?_, ?_, ?_⟩ <;> simp [threadExitStep, hl, hsc]
  | redraw_no_rebuild hh hc => exact ⟨h1, h2, h3, h4⟩
  | redraw_rebuild_ok ps hh hc hr hres =>
    have hempty := h1 hc
    refine ⟨?_, ?_, ?_, ?_⟩ <;> simp [rebuildOkStep, drainedState, hempty]
  | redraw_rebuild_unresolved hh hc hr hres =>
    have hempty := h1 hc
    have hsc := h4 hc hr
    refine ⟨?_, ?_, ?_, ?_⟩ <;> simp [rebuildPanicStep, drainedState, hempty, hc, hsc]
  | redraw_rebuild_create_fail ps hh hc hr hres =>
    have hempty := h1 hc
    have hsc := h4 hc hr
    refine ⟨?_, ?_, ?_, ?_⟩ <;> simp [rebuildPanicStep, drainedState, hempty, hc, hsc]

theorem loopInv_reachable {s₀ s : LoopState} (h₀ : InitOk s₀) (hr : Reachable s₀ s) :
    LoopInv s := by
  induction hr with
  | refl =>
    obtain ⟨ha, hb, hc, hd⟩ := h₀
    exact ⟨fun _ => hc, by simp [hc], by simp [hc], fun _ _ => hd⟩
  | tail hr hstep ih => exact loopInv_step ih hstep

/-- C1: for every sequence of reload requests, at most one background
compile thread is active at any time; a reload request arriving while
`IS_COMPILING` is already true is silently dropped (the compare-and-swap
in the F5 handler fails and nothing is spawned). -/
theorem at_most_one_compile_thread {start s : LoopState}
    (h₀ : InitOk start) (hr : Reachable start s) : s.threads.length ≤ 1 :=
  (loopInv_reachable h₀ hr).2.1

theorem at_most_one_compile_thread_witness :
    (spawnStep initExample).threads.length ≤ 1 :=
  at_most_one_compile_thread (by refine ⟨?_, ?_, ?_, ?_⟩ <;> decide)
    (Reachable.tail Reachable.refl (Step.key_reload_spawn initExample (by decide) (by decide)))

/-- C2: in every successful background compile the staged buffer is
fully written before `NEEDS_REBUILD` is set, which is set before
`IS_COMPILING` is cleared (this ordering is the transition structure of
`Step`); consequently, whenever the render thread observes
`compiling = false` and `rebuild_pending = true` — the drain guard — the
staged buffer is complete, and no background thread is left that could
still be writing it. -/
theorem staged_buffer_complete_at_drain {start s : LoopState}
    (h₀ : InitOk start) (hr : Reachable start s)
    (hc : s.compiling = false) (hp : s.needsRebuild = true) :
    s.stagedComplete = true ∧ s.threads = [] := by
  obtain ⟨h1, h2, h3, h4⟩ := loopInv_reachable h₀ hr
  exact ⟨h4 hc hp, h1 hc⟩

theorem staged_buffer_complete_at_drain_witness :
    drainReadyExample.stagedComplete = true ∧ drainReadyExample.threads = [] :=
  @staged_buffer_complete_at_drain initExample drainReadyExample
    (by refine ⟨?_, ?_, ?_, ?_⟩ <;> decide)
    (Reachable.tail
      (Reachable.tail
        (Reachable.tail
          (Reachable.tail
            (Reachable.tail Reachable.refl
              (Step.key_reload_spawn initExample (by decide) (by decide)))
            (Step.write_begin (spawnStep initExample) 0 (by decide) (by decide)))
          (Step.write_end (writeBeginStep (spawnStep initExample) 0) 0
            [{ name := "sky_shader", spirv := [119734787, 66560, 17] }] (by decide) (by decide)))
        (Step.set_pending
          (writeEndStep (writeBeginStep (spawnStep initExample) 0) 0
            [{ name := "sky_shader", spirv := [119734787, 66560, 17] }])
          0 (by decide) (by decide)))
      (Step.thread_exit
        (setPendingStep
          (writeEndStep (writeBeginStep (spawnStep initExample) 0) 0
            [{ name := "sky_shader", spirv := [119734787, 66560, 17] }])
          0)
        0 (by decide) (by decide)))
    (by decide) (by decide)

/-- The state reached when the very first reload request's background
compile panics: the thread dies between the spawn and its first write. -/
theorem compile_failure_leaves_compiling_stuck :
    Reachable initExample (compileFailStep (spawnStep initExample) 0) ∧
    (compileFailStep (spawnStep initExample) 0).compiling = true ∧
    (compileFailStep (spawnStep initExample) 0).threads = [] ∧
    (compileFailStep (spawnStep initExample) 0).needsRebuild = false ∧
    ¬ Idle (compileFailStep (spawnStep initExample) 0) := by
  refine ⟨?_, by decide, by decide, by decide, ?_⟩
  · exact Reachable.tail
      (Reachable.tail Reachable.refl
        (Step.key_reload_spawn initExample (by decide) (by decide)))
      (Step.compile_fail (spawnStep initExample) 0 (by decide) (by decide))
  · intro h
    have := h.1
    simp [compileFailStep, spawnStep] at this

/-- C3 (amended): when a background compile fails, the panic is confined
to the background thread: the registry, pipeline set, staged buffer and
`NEEDS_REBUILD` flag are all left byte-for-byte unchanged and the render
loop keeps running the last-good configuration — but `IS_COMPILING` is
never reset, so the hot-reload state stays in Compiling (never returning
to Idle) and every later reload request is dropped. -/
theorem compile_failure_keeps_last_good {start s : LoopState} {i : Nat}
    (h₀ : InitOk start) (hr : Reachable start s)
    (hget : s.threads.get? i = some ThreadPC.started) :
    (compileFailStep s i).shader_modules = s.shader_modules ∧
    (compileFailStep s i).pipelines = s.pipelines ∧
    (compileFailStep s i).needsRebuild = s.needsRebuild ∧
    (compileFailStep s i).newShaders = s.newShaders ∧
    (compileFailStep s i).halted = s.halted ∧
    (compileFailStep s i).compiling = true ∧
    ∀ t, Step (compileFailStep s i) t → t.threads = (compileFailStep s i).threads := by
  obtain ⟨h1, h2, h3, h4⟩ := loopInv_reachable h₀ hr
  obtain ⟨hl, hi⟩ := len_le_one_get? h2 hget
  have hcomp := compiling_of_thread h1 hl
  subst hi
  refine ⟨rfl, rfl, rfl, rfl, rfl, hcomp, ?_⟩
  intro t hstep
  cases hstep with
  | key_reload_dropped hh hc => rfl
  | key_reload_spawn hh hc => rw [compileFailStep] at hc; simp_all
  | compile_fail i hh hget => simp [compileFailStep, hl] at hget
  | write_begin i hh hget => simp [compileFailStep, hl] at hget
  | write_end i mods hh hget => simp [compileFailStep, hl] at hget
  | set_pending i hh hget => simp [compileFailStep, hl] at hget
  | thread_exit i hh hget => simp [compileFailStep, hl] at hget
  | redraw_no_rebuild hh hc => rfl
  | redraw_rebuild_ok ps hh hc hr hres => rw [compileFailStep] at hc; simp_all
  | redraw_rebuild_unresolved hh hc hr hres => rw [compileFailStep] at hc; simp_all
  | redraw_rebuild_create_fail ps hh hc hr hres => rw [compileFailStep] at hc; simp_all

theorem compile_failure_keeps_last_good_witness :
    (compileFailStep (spawnStep initExample) 0).compiling = true :=
  (@compile_failure_keeps_last_good initExample (spawnStep initExample) 0
    (by refine ⟨?_, ?_, ?_, ?_⟩ <;> decide)
    (Reachable.tail Reachable.refl
      (Step.key_reload_spawn initExample (by decide) (by decide)))
    (by decide)).2.2.2.2.2.1

/-- A reachable rebuild failure (here: `create_graphics_pipelines`
panicking, modelled by `redraw_rebuild_unresolved` on a registry missing
the referenced name) halts the render loop: the error is a panic, not a
surfaced recoverable error, refuting the claim that rendering is not
disrupted. -/
theorem rebuild_failure_disrupts_rendering : ¬ ClaimC5 := by
  intro h
  have hstep : Step unresolvedExample (rebuildPanicStep unresolvedExample) :=
    Step.redraw_rebuild_unresolved unresolvedExample (by decide) (by decide) (by decide)
      (by decide)
  have := h unresolvedExample (rebuildPanicStep unresolvedExample) (by decide) hstep
  rw [show (rebuildPanicStep unresolvedExample).halted = true from rfl] at this
  exact Bool.noConfusion this

/-- C5 (amended): the pipeline set is discarded and replaced only by a
transition whose whole batch resolved successfully; a rebuild failure
(unresolved module name, or batch construction failure) leaves the
previous pipeline set in place — but it is a panic that halts the render
loop (with `NEEDS_REBUILD` still set), not an error surfaced to a still
running loop. -/
theorem pipelines_replaced_only_on_success {s t : LoopState} (hstep : Step s t) :
    (t.halted = true →
      t.pipelines = s.pipelines ∧ t.needsRebuild = true ∧ s.halted = false) ∧
    (t.pipelines = s.pipelines ∨
      ∃ ps, rebuild_pipelines (drainedState s).shader_modules s.shader_set = some ps ∧
        t.pipelines = ps) := by
  cases hstep with
  | key_reload_dropped hh hc => exact ⟨fun hhal => absurd (hh ▸ hhal) (by simp), Or.inl rfl⟩
  | key_reload_spawn hh hc =>
    exact ⟨fun hhal => by simp [spawnStep, hh] at hhal, Or.inl rfl⟩
  | compile_fail i hh hget =>
    exact ⟨fun hhal => by simp [compileFailStep, hh] at hhal, Or.inl rfl⟩
  | write_begin i hh hget =>
    exact ⟨fun hhal => by simp [writeBeginStep, hh] at hhal, Or.inl rfl⟩
  | write_end i mods hh hget =>
    exact ⟨fun hhal => by simp [writeEndStep, hh] at hhal, Or.inl rfl⟩
  | set_pending i hh hget =>
    exact ⟨fun hhal => by simp [setPendingStep, hh] at hhal, Or.inl rfl⟩
  | thread_exit i hh hget =>
    exact ⟨fun hhal => by simp [threadExitStep, hh] at hhal, Or.inl rfl⟩
  | redraw_no_rebuild hh hc => exact ⟨fun hhal => absurd (hh ▸ hhal) (by simp), Or.inl rfl⟩
  | redraw_rebuild_ok ps hh hc hr hres =>
    exact ⟨fun hhal => by simp [rebuildOkStep, drainedState, hh] at hhal,
      Or.inr ⟨ps, hres, rfl⟩⟩
  | redraw_rebuild_unresolved hh hc hr hres =>
    exact ⟨fun _ => ⟨rfl, hr, hh⟩, Or.inl rfl⟩
  | redraw_rebuild_create_fail ps hh hc hr hres =>
    exact ⟨fun _ => ⟨rfl, hr, hh⟩, Or.inl rfl⟩

theorem pipelines_replaced_only_on_success_witness :
    (rebuildPanicStep unresolvedExample).pipelines = unresolvedExample.pipelines :=
  ((pipelines_replaced_only_on_success
      (Step.redraw_rebuild_unresolved unresolvedExample (by decide) (by decide) (by decide)
        (by decide))).1 (by decide)).1

/-- After the startup compile-and-build over the single
`sky_shader::main_vs` / `sky_shader::main_fs` entry-point pair, the
pipeline manager holds exactly one pipeline and the registry exactly one
named module — not two of each. -/
theorem startup_pipeline_count :
    (startupState exampleStartupShaders true).pipelines.length = 1 ∧
    ¬ (startupState exampleStartupShaders true).pipelines.length = 2 ∧
    (startupState exampleStartupShaders true).shader_modules.length = 1 := by
  refine ⟨by decide, by decide, by decide⟩

/-- C9 (amended): after a successful startup compile whose artifacts
register `sky_shader`, the pipeline manager holds exactly one pipeline,
whose vertex stage is (`sky_shader`, `main_vs`) and fragment stage
(`sky_shader`, `main_fs`), both resolving to the single registered
module handle. -/
theorem startup_builds_one_sky_pipeline (shaders : List SpirvShader) (hdl : Nat)
    (h : lookupModule (drainInsert [] 0 shaders).1 "sky_shader" = some hdl) :
    (startupState shaders true).pipelines =
      [{ vertHandle := hdl, vertEntry := "main_vs", fragHandle := hdl, fragEntry := "main_fs" }] ∧
    (startupState shaders true).halted = false ∧
    (startupState shaders true).pipelines.length = 1 := by
  have hres : rebuild_pipelines (drainInsert [] 0 shaders).1 [skyEntryPair] =
      some [{ vertHandle := hdl, vertEntry := "main_vs"
              fragHandle := hdl, fragEntry := "main_fs" }] := by
    simp [rebuild_pipelines, resolvePipeline, skyEntryPair, h]
  refine ⟨?_, ?_, ?_⟩ <;> simp [startupState, hres]

theorem startup_builds_one_sky_pipeline_witness :
    (startupState exampleStartupShaders true).pipelines =
      [{ vertHandle := 0, vertEntry := "main_vs", fragHandle := 0, fragEntry := "main_fs" }] :=
  (startup_builds_one_sky_pipeline exampleStartupShaders 0 (by decide)).1

theorem loadShaderFiles_err_iff (readSpv : String → Option (List Nat)) :
    ∀ ps : List String,
      isErr (loadShaderFiles readSpv ps) = true ↔ ∃ p ∈ ps, readSpv p = none := by
  intro ps
  induction ps with
  | nil => simp [loadShaderFiles, isErr]
  | cons p ps ih =>
    cases hp : readSpv p with
    | none =>
      simp only [loadShaderFiles, hp]
      constructor
      · intro _
        exact ⟨p, List.mem_cons_self p ps, hp⟩
      · intro _
        rfl
    | some w =>
      simp only [loadShaderFiles, hp]
      cases hrec : loadShaderFiles readSpv ps with
      | error e =>
        rw [hrec] at ih
        constructor
        · intro _
          obtain ⟨x, hx1, hx2⟩ := ih.mp rfl
          exact ⟨x, List.mem_cons_of_mem p hx1, hx2⟩
        · intro _
          rfl
      | ok rest =>
        rw [hrec] at ih
        constructor
        · intro hfalse
          exact Bool.noConfusion hfalse
        · intro hor
          obtain ⟨x, hmem, hx⟩ := hor
          rcases List.mem_cons.mp hmem with rfl | hxs
          · rw [hx] at hp
            exact Option.noConfusion hp
          · exact ih.mpr ⟨x, hxs, hx⟩

/-- C4 (amended): `compile_shaders` fails exactly when the cargo process
cannot be executed at all, or no stdout line parses to a
compiler-artifact event, or the last such event carries no filename
list, or one of the listed `.spv` files cannot be read.  (The process
exit status is never inspected, and a last artifact event whose file
list contains no `.spv` entry yields *success* with an empty module
list.) -/
theorem compile_shaders_err_iff (out : CargoOutput) (readSpv : String → Option (List Nat)) :
    isErr (compile_shaders out readSpv) = true ↔
      (out.spawnOk = false ∨
       parsedArtifactEvents out = [] ∨
       (∃ m, (parsedArtifactEvents out).getLast? = some m ∧ m.filenames = none) ∨
       ∃ p ∈ spvArtifactPaths out, readSpv p = none) := by
  by_cases hs : out.spawnOk = false
  · simp [compile_shaders, hs, isErr]
  · cases hlast : (parsedArtifactEvents out).getLast? with
    | none =>
      have hnil : parsedArtifactEvents out = [] := by
        cases hpe : parsedArtifactEvents out with
        | nil => rfl
        | cons a l =>
          rw [hpe] at hlast
          simp at hlast
      simp [compile_shaders, hs, hlast, isErr, hnil]
    | some m =>
      have hne : ¬ parsedArtifactEvents out = [] := by
        intro hh
        rw [hh] at hlast
        simp at hlast
      cases hf : m.filenames with
      | none =>
        simp [compile_shaders, hs, hlast, hf, isErr, hne]
      | some files =>
        have hsp : out.spawnOk = true := by
          cases hq : out.spawnOk
          · exact absurd hq hs
          · rfl
        have hpaths : spvArtifactPaths out = files.filter (fun f => strEndsWith f ".spv") := by
          simp [spvArtifactPaths, hlast, hf]
        have hcall : compile_shaders out readSpv =
            loadShaderFiles readSpv (files.filter (fun f => strEndsWith f ".spv")) := by
          simp [compile_shaders, hsp, hlast, hf]
        rw [hcall, loadShaderFiles_err_iff, hpaths]
        simp [hsp, hne, hlast, hf]

theorem compile_shaders_err_iff_witness :
    isErr (compile_shaders cargoOneSpv fsEmpty) = true ↔
      (cargoOneSpv.spawnOk = false ∨
       parsedArtifactEvents cargoOneSpv = [] ∨
       (∃ m, (parsedArtifactEvents cargoOneSpv).getLast? = some m ∧ m.filenames = none) ∨
       ∃ p ∈ spvArtifactPaths cargoOneSpv, fsEmpty p = none) :=
  compile_shaders_err_iff cargoOneSpv fsEmpty

/-- The embedded `compile_shaders` on a run that exited abnormally and produced no
`.spv` artifact returns success with an empty module list, refuting the
claimed failure conditions ("exits abnormally", "no binary shader
artifacts found"). -/
theorem compile_succeeds_without_spv_artifacts : ¬ ClaimC4 := by
  intro h
  have h2 := (h cargoNoSpv fsEmpty).2 (Or.inl rfl)
  have h3 : isErr (compile_shaders cargoNoSpv fsEmpty) = false := by decide
  rw [h2] at h3
  exact Bool.noConfusion h3

theorem destroyLog_no_create (ctx : RenderCtx) :
    ∀ op ∈ recreateDestroyLog ctx, op.isCreate = false := by
  intro op hop
  cases op <;> simp_all [recreateDestroyLog, GpuOp.isCreate]

theorem createLog_no_destroy (views : List Nat) (renderPass : Nat)
    (fbs : List FramebufferInfo) :
    ∀ op ∈ recreateCreateLog views renderPass fbs, op.isDestroy = false := by
  intro op hop
  cases op <;> simp_all [recreateCreateLog, GpuOp.isDestroy]

theorem append_destroys_before_creates (A B : List GpuOp)
    (hA : ∀ op ∈ A, op.isCreate = false) (hB : ∀ op ∈ B, op.isDestroy = false) :
    ∀ i j (hi : i < (A ++ B).length) (hj : j < (A ++ B).length),
      ((A ++ B).get ⟨i, hi⟩).isDestroy = true → ((A ++ B).get ⟨j, hj⟩).isCreate = true →
      i < j := by
  intro i j hi hj hd hc
  have hiA : i < A.length := by
    by_contra hge
    push_neg at hge
    have hmem : (A ++ B).get ⟨i, hi⟩ ∈ B := by
      rw [List.get_eq_getElem, List.getElem_append_right hge]
      exact List.getElem_mem _
    rw [hB _ hmem] at hd
    exact Bool.noConfusion hd
  have hjB : A.length ≤ j := by
    by_contra hlt
    push_neg at hlt
    have hmem : (A ++ B).get ⟨j, hj⟩ ∈ A := by
      rw [List.get_eq_getElem, List.getElem_append_left hlt]
      exact List.getElem_mem _
    rw [hA _ hmem] at hc
    exact Bool.noConfusion hc
  omega

/-- C6: `recreate_swapchain` first waits for device idle (the first
logged call), its log splits into the destroy block — framebuffers, then
command buffers, then the render pass, then the image views, then the
old chain, in the order fixed by `recreateDestroyLog` — followed by the
create block, and every destroy call strictly precedes every create
call. -/
theorem recreate_swapchain_order (ctx : RenderCtx) (caps : SurfaceCapabilities)
    (windowInner : Extent2D) (presentModes : List PresentMode) :
    (recreate_swapchain ctx caps windowInner presentModes).2.head? = some GpuOp.waitIdle ∧
    (∃ views renderPass fbs,
      (recreate_swapchain ctx caps windowInner presentModes).2 =
        recreateDestroyLog ctx ++ recreateCreateLog views renderPass fbs) ∧
    ∀ i j (hi : i < (recreate_swapchain ctx caps windowInner presentModes).2.length)
        (hj : j < (recreate_swapchain ctx caps windowInner presentModes).2.length),
      ((recreate_swapchain ctx caps windowInner presentModes).2.get ⟨i, hi⟩).isDestroy = true →
      ((recreate_swapchain ctx caps windowInner presentModes).2.get ⟨j, hj⟩).isCreate = true →
      i < j := by
  refine ⟨rfl, ⟨_, _, _, rfl⟩, ?_⟩
  exact append_destroys_before_creates (recreateDestroyLog ctx) _
    (destroyLog_no_create ctx) (createLog_no_destroy _ _ _)

theorem recreate_swapchain_order_witness :
    (recreate_swapchain ctxExample capsExample windowExample []).2.head? =
      some GpuOp.waitIdle ∧ 1 < 6 :=
  ⟨(recreate_swapchain_order ctxExample capsExample windowExample []).1,
   (recreate_swapchain_order ctxExample capsExample windowExample []).2.2 1 6
     (by decide) (by decide) (by decide) (by decide)⟩

/-- A recreation whose surface reports a fixed `current_extent`
different from the window's inner size yields a chain at the surface's
extent, not the window's dimensions, refuting the claimed unconditional
equality. -/
theorem recreate_extent_not_window : ¬ ClaimC7 := by
  intro h
  have hext := (h ctxExample capsMismatch windowExample []).2.2
  have h2 : (recreate_swapchain ctxExample capsMismatch windowExample []).1.swapchain.extent =
      { width := 800, height := 600 } := by decide
  exact absurd (hext.symm.trans h2) (by decide)

/-- C7 (amended): a resize-triggered recreation leaves the pipeline set,
the shader-module registry, the shader set and the dynamic
viewport/scissor state untouched; the new chain's resolution is
`surface_resolution` — the surface's `current_extent`, which equals the
window's inner size exactly when the surface reports the `u32::MAX`
sentinel (or happens to track the window). -/
theorem recreate_swapchain_preserves_pipelines (ctx : RenderCtx)
    (caps : SurfaceCapabilities) (windowInner : Extent2D)
    (presentModes : List PresentMode) :
    (recreate_swapchain ctx caps windowInner presentModes).1.pipelines = ctx.pipelines ∧
    (recreate_swapchain ctx caps windowInner presentModes).1.shader_modules =
      ctx.shader_modules ∧
    (recreate_swapchain ctx caps windowInner presentModes).1.shader_set = ctx.shader_set ∧
    (recreate_swapchain ctx caps windowInner presentModes).1.viewports = ctx.viewports ∧
    (recreate_swapchain ctx caps windowInner presentModes).1.scissors = ctx.scissors ∧
    (recreate_swapchain ctx caps windowInner presentModes).1.swapchain.extent =
      surface_resolution caps windowInner ∧
    (caps.currentExtent.width = U32_MAX →
      (recreate_swapchain ctx caps windowInner presentModes).1.swapchain.extent =
        windowInner) := by
  refine ⟨rfl, rfl, rfl, rfl, rfl, rfl, ?_⟩
  intro hmax
  show surface_resolution caps windowInner = windowInner
  simp [surface_resolution, hmax]

theorem recreate_swapchain_preserves_pipelines_witness :
    (recreate_swapchain ctxExample capsSentinel windowExample []).1.swapchain.extent =
      windowExample :=
  (recreate_swapchain_preserves_pipelines ctxExample capsSentinel windowExample
    []).2.2.2.2.2.2 rfl

/-- C10: `surface_resolution` returns the capabilities'
`current_extent` whenever its width differs from `u32::MAX`, and the
window's inner size exactly when the width equals `u32::MAX`; the
swapchain extent, every framebuffer's dimensions and the viewport and
scissor built by `from_base` are all sized from this value. -/
theorem surface_resolution_spec (caps : SurfaceCapabilities) (windowInner : Extent2D)
    (presentModes : List PresentMode) (views : List Nat) (renderPass base : Nat) :
    (caps.currentExtent.width ≠ U32_MAX →
      surface_resolution caps windowInner = caps.currentExtent) ∧
    (caps.currentExtent.width = U32_MAX →
      surface_resolution caps windowInner = windowInner) ∧
    (create_swapchain caps windowInner presentModes).extent =
      surface_resolution caps windowInner ∧
    (∀ fb ∈ create_framebuffers caps windowInner views renderPass base,
      fb.width = (surface_resolution caps windowInner).width ∧
      fb.height = (surface_resolution caps windowInner).height) ∧
    (∀ v ∈ from_base_viewports caps windowInner,
      v.width = ((surface_resolution caps windowInner).width : Int) ∧
      v.height = -((surface_resolution caps windowInner).height : Int) ∧
      v.y = ((surface_resolution caps windowInner).height : Int)) ∧
    ∀ sc ∈ from_base_scissors caps windowInner,
      sc.extent = surface_resolution caps windowInner := by
  refine ⟨?_, ?_, rfl, ?_, ?_, ?_⟩
  · intro hne
    simp [surface_resolution, hne]
  · intro hmax
    simp [surface_resolution, hmax]
  · intro fb hfb
    simp only [create_framebuffers, List.mem_map, List.mem_range] at hfb
    obtain ⟨i, _, rfl⟩ := hfb
    exact ⟨rfl, rfl⟩
  · intro v hv
    simp only [from_base_viewports, List.mem_singleton] at hv
    subst hv
    exact ⟨rfl, rfl, rfl⟩
  · intro sc hsc
    simp only [from_base_scissors, List.mem_singleton] at hsc
    subst hsc
    rfl

theorem surface_resolution_spec_witness :
    surface_resolution capsExample windowExample = capsExample.currentExtent ∧
    surface_resolution capsSentinel windowExample = windowExample :=
  ⟨(surface_resolution_spec capsExample windowExample [] [] 0 0).1 (by decide),
   (surface_resolution_spec capsSentinel windowExample [] [] 0 0).2.1 rfl⟩

theorem pushedConstants_flatten_draws (ctx : RenderCtx) (caps : SurfaceCapabilities)
    (windowInner : Extent2D) :
    ∀ ps : List PipelineModel,
      pushedConstants ((ps.map (fun p => draw ctx caps windowInner p)).flatten) =
        ps.map (fun _ => ({ width := 1920, height := 720 } : ShaderConstants)) := by
  intro ps
  induction ps with
  | nil => rfl
  | cons p ps ih =>
    simp only [List.map_cons, List.flatten_cons, pushedConstants, List.filterMap_append]
    simp only [pushedConstants] at ih
    rw [ih]
    rfl

/-- C8: on every frame the source pushes, once per pipeline, the
hard-coded record `{width: 1920, height: 720}` — not the live surface
resolution; at the startup resolution 1280 x 720 the pushed record
already diverges from the live value the spec declares to be the
intended contract. -/
theorem push_constants_hardcoded :
    (∀ (ctx : RenderCtx) (caps : SurfaceCapabilities) (windowInner : Extent2D),
      pushedConstants (render ctx caps windowInner) =
        ctx.pipelines.map (fun _ => ({ width := 1920, height := 720 } : ShaderConstants))) ∧
    pushedConstants (render ctxExample capsExample windowExample) =
      [{ width := 1920, height := 720 }] ∧
    surface_resolution capsExample windowExample = { width := 1280, height := 720 } ∧
    ({ width := 1920, height := 720 } : ShaderConstants) ≠ { width := 1280, height := 720 } := by
  refine ⟨?_, by decide, by decide, by decide⟩
  intro ctx caps windowInner
  exact pushedConstants_flatten_draws ctx caps windowInner ctx.pipelines
